import Mathlib

/-!
Verification development for the busybus message-bus daemon.

The definitions below are a shallow embedding of the daemon sources:
`src/bin/bbusd.c` (routing engine), `src/lib/error.c` (error strings) and
the protocol constants of `src/include/busybus.h`.  C strings are modelled
as `List Char`, byte buffers as `List Nat`, the hash maps as association
lists, and all I/O as explicit transcripts of sent frames.
-/

namespace Busybus

/-! ### Protocol constants (src/include/busybus.h) -/

def BBUS_MAGIC : Nat := 0xBBC5

def BBUS_MSGTYPE_SO : Nat := 0x01

def BBUS_MSGTYPE_SOOK : Nat := 0x02

def BBUS_MSGTYPE_SORJCT : Nat := 0x03

def BBUS_MSGTYPE_SRVREG : Nat := 0x04

def BBUS_MSGTYPE_SRVUNREG : Nat := 0x05

def BBUS_MSGTYPE_SRVACK : Nat := 0x06

def BBUS_MSGTYPE_CLICALL : Nat := 0x07

def BBUS_MSGTYPE_CLIREPLY : Nat := 0x08

def BBUS_MSGTYPE_CLISIG : Nat := 0x09

def BBUS_MSGTYPE_SRVCALL : Nat := 0x0A

def BBUS_MSGTYPE_SRVREPLY : Nat := 0x0B

def BBUS_MSGTYPE_SRVSIG : Nat := 0x0C

def BBUS_MSGTYPE_CLOSE : Nat := 0x0D

def BBUS_MSGTYPE_CTRL : Nat := 0x0E

def BBUS_MSGTYPE_MON : Nat := 0x0F

def BBUS_PROT_EGOOD : Nat := 0x00

def BBUS_PROT_ENOMETHOD : Nat := 0x01

def BBUS_PROT_EMETHODERR : Nat := 0x02

def BBUS_PROT_EMREGERR : Nat := 0x03

def BBUS_PROT_HASMETA : Nat := 1

def BBUS_PROT_HASOBJECT : Nat := 2

def UINT32_MAX : Nat := 4294967295

/-! ### Association lists

Modelled from the spec: the `bbus_hashmap` helper (its implementation is
not under `src/`, only its declarations in `busybus.h`); §9 of the spec
maps it to "the target language's idiomatic keyed mapping", which we
realize as an association list.  `alist_find` is `bbus_hmap_findstr` /
`bbus_hmap_finduint`, `alist_set` is `bbus_hmap_setstr` /
`bbus_hmap_setuint` (insert or overwrite). -/

def alist_find {κ : Type} [DecidableEq κ] {β : Type} : List (κ × β) → κ → Option β
  | [], _ => none
  | (k', v) :: rest, k => if k' = k then some v else alist_find rest k

def alist_set {κ : Type} [DecidableEq κ] {β : Type} : List (κ × β) → κ → β → List (κ × β)
  | [], k, v => [(k, v)]
  | (k', v') :: rest, k, v =>
      if k' = k then (k, v) :: rest else (k', v') :: alist_set rest k v

/-! ### Path splitting

`do_insert_method` and `do_locate_method` in `bbusd.c` consume the dotted
path one component at a time using `index(path, '.')`.  `splitOnChar`
computes the same decomposition up front: the list of components between
the separators.  It never returns the empty list. -/

def splitOnChar (c : Char) : List Char → List (List Char)
  | [] => [[]]
  | x :: rest =>
      let r := splitOnChar c rest
      if x = c then [] :: r
      else
        match r with
        | [] => [[x]]
        | h :: t => (x :: h) :: t

/-! ### Service tree (src/bin/bbusd.c, struct service_tree)

Each node holds a map of sub-services and a map of methods.  The element
type is a parameter: the daemon instantiates it with `Method` below; the
tree code itself treats entries as opaque pointers. -/

inductive ServiceTree (α : Type) : Type where
  | node : List (List Char × ServiceTree α) → List (List Char × α) → ServiceTree α

def ServiceTree.empty {α : Type} : ServiceTree α := .node [] []

/-- `do_insert_method` from `bbusd.c` (lines 185-249), on the component
list of the path.  The C code mutates the tree in place and creates the
missing intermediate node (and links it into `subsrvc`) before recursing,
so the returned tree reflects all mutations whether or not the insert
succeeded; the `Bool` is the success flag (`0` / `-1` in C).  The `[]`
case is unreachable: `splitOnChar` never yields `[]`. -/
def do_insert_method {α : Type} : List (List Char) → α → ServiceTree α →
    Bool × ServiceTree α
  | [], _, t => (false, t)
  | [p], mthd, .node sub mets =>
      match alist_find mets p with
      | some _ => (false, .node sub mets)
      | none => (true, .node sub (alist_set mets p mthd))
  | p :: q :: rest, mthd, .node sub mets =>
      let next := (alist_find sub p).getD ServiceTree.empty
      let r := do_insert_method (q :: rest) mthd next
      (r.1, .node (alist_set sub p r.2) mets)

/-- `insert_method` from `bbusd.c` (lines 251-264): split the path at the
dots and descend. -/
def insert_method {α : Type} (path : List Char) (mthd : α) (t : ServiceTree α) :
    Bool × ServiceTree α :=
  do_insert_method (splitOnChar '.' path) mthd t

/-- `do_locate_method` from `bbusd.c` (lines 266-285). -/
def do_locate_method {α : Type} : List (List Char) → ServiceTree α → Option α
  | [], _ => none
  | [p], .node _ mets => alist_find mets p
  | p :: q :: rest, .node sub _ =>
      match alist_find sub p with
      | none => none
      | some next => do_locate_method (q :: rest) next

/-- `locate_method` from `bbusd.c` (lines 287-300). -/
def locate_method {α : Type} (path : List Char) (t : ServiceTree α) : Option α :=
  do_locate_method (splitOnChar '.' path) t

/-! ### Token generation (src/bin/bbusd.c, make_token) -/

/-- `make_token` from `bbusd.c` (lines 534-542).  The static `uint32_t`
counter is passed explicitly; the result is `(returned token, new counter
value)`.  The `% 2^32` models the `uint32_t` increment. -/
def make_token (curtok : Nat) : Nat × Nat :=
  let c := if curtok = UINT32_MAX then 0 else curtok
  ((c + 1) % 4294967296, (c + 1) % 4294967296)

/-! ### Error strings (src/lib/error.c) -/

def BBUS_ESUCCESS : Int := 10000

def BBUS_MAX_ERR : Int := 10020

/-- The static `error_descr` table from `error.c` (lines 30-49). -/
def error_descr : List String :=
  [ "success"
  , "out of memory"
  , "invalid argument"
  , "invalid busybus object format"
  , "not enough space in buffer"
  , "connection closed by remote peer"
  , "invalid message format"
  , "wrong magic number in received message"
  , "received message of incorrect type"
  , "session open rejected"
  , "didn't manage to send all data"
  , "received less data, than expected"
  , "internal logic error"
  , "no such method"
  , "internal method error"
  , "poll interrupted by a signal"
  , "error registering the method"
  , "invalid key type used on a hashmap" ]

/-- Stands in for glibc `strerror`, called by `bbus_strerror` for error
numbers below `BBUS_ESUCCESS`; external to the repository. -/
def glibc_strerror (_errnum : Int) : String := "glibc error description"

/-- `bbus_strerror` from `error.c` (lines 56-64).  The C function returns
`error_descr[errnum - BBUS_ESUCCESS]`; an index past the end of the table
is an out-of-bounds read, modelled as `none`. -/
def bbus_strerror (errnum : Int) : Option String :=
  if errnum < BBUS_ESUCCESS then some (glibc_strerror errnum)
  else if BBUS_MAX_ERR ≤ errnum then some "invalid error code"
  else error_descr.get? (errnum - BBUS_ESUCCESS).toNat

/-! ### Message headers and messages

`struct bbus_msg_hdr` from `busybus.h`.  Field values are `Nat`s holding
the host-byte-order view; multi-byte fields are bounded by their C width
where the code depends on it. -/

structure MsgHdr where
  magic : Nat
  msgtype : Nat
  sotype : Nat
  errcode : Nat
  token : Nat
  psize : Nat
  flags : Nat
deriving DecidableEq

/-- Modelled from the spec: `bbus_hdr_build` (its implementation is not
under `src/`; `busybus.h` documents it as filling the basic fields of the
header for a message of type `typ` with error code `err`).  All call
sites in `bbusd.c` rely on the remaining fields being zero. -/
def bbus_hdr_build (typ err : Nat) : MsgHdr :=
  ⟨BBUS_MAGIC, typ, 0, err, 0, 0, 0⟩

/-- Modelled from the spec: `bbus_hdr_settoken` (`busybus.h`, network
byte order is invisible at this level). -/
def bbus_hdr_settoken (h : MsgHdr) (tok : Nat) : MsgHdr :=
  { h with token := tok }

/-- Modelled from the spec: `bbus_hdr_gettoken` (`busybus.h`). -/
def bbus_hdr_gettoken (h : MsgHdr) : Nat := h.token

/-- Modelled from the spec: `bbus_hdr_setpsize` (`busybus.h`: sizes above
`UINT16_MAX` are capped at `UINT16_MAX`). -/
def bbus_hdr_setpsize (h : MsgHdr) (size : Nat) : MsgHdr :=
  { h with psize := min size 65535 }

/-- `BBUS_HDR_SETFLAG` from `busybus.h`. -/
def hdr_setflag (h : MsgHdr) (flag : Nat) : MsgHdr :=
  { h with flags := h.flags ||| flag }

/-- `BBUS_HDR_ISFLAGSET` from `busybus.h`. -/
def hdr_isflagset (h : MsgHdr) (flag : Nat) : Bool :=
  h.flags &&& flag ≠ 0

/-- A received message: header plus decoded payload.  The payload is kept
in its decoded form: an optional NUL-terminated meta string and an
optional object byte buffer (`bbus_object` is carried opaquely by the
daemon, so raw bytes suffice; `bbus_obj_rawsize` is the length). -/
structure Msg where
  hdr : MsgHdr
  meta : Option (List Char)
  obj : Option (List Nat)
deriving DecidableEq

/-- Modelled from the spec: `bbus_prot_extractmeta` (wire-framing code
not under `src/`; §4.2: returns the meta string iff `HAS_META` is set and
the payload holds a terminated string). -/
def bbus_prot_extractmeta (m : Msg) : Option (List Char) :=
  if hdr_isflagset m.hdr BBUS_PROT_HASMETA then m.meta else none

/-- Modelled from the spec: `bbus_prot_extractobj` (wire-framing code not
under `src/`; §4.2: returns the object bytes iff `HAS_OBJECT` is set). -/
def bbus_prot_extractobj (m : Msg) : Option (List Nat) :=
  if hdr_isflagset m.hdr BBUS_PROT_HASOBJECT then m.obj else none

/-! ### The daemon's method entries and outbound transcript -/

/-- `struct method` from `bbusd.c`: local methods hold the function,
remote methods reference the providing client's session (modelled by its
session id, standing for the `clientlist_elem` pointer). -/
inductive Method : Type where
  | localm : (List Nat → Option (List Nat)) → Method
  | remote : Nat → Method

/-- Destination of a frame sent by the daemon, by session id. -/
inductive Dest : Type where
  | client : Nat → Dest
  | monitor : Nat → Dest
deriving DecidableEq

/-- One successful `bbus_client_sendmsg` call: destination, header and
payload parts. -/
structure SendRec where
  dest : Dest
  hdr : MsgHdr
  meta : Option (List Char)
  obj : Option (List Nat)
deriving DecidableEq

/-- `mname_from_srvcname` from `bbusd.c` (lines 307-315): `rindex` the
last dot and return the suffix after it, or NULL when the path has no
dot. -/
def mname_from_srvcname (srvc : List Char) : Option (List Char) :=
  match splitOnChar '.' srvc with
  | [] => none
  | [_] => none
  | l => some (l.getLastD [])

/-- `send_to_monitors` from `bbusd.c` (lines 302-305): the body is a bare
`return` — no frame is written to any monitor. -/
def send_to_monitors (_msg : Msg) : List SendRec := []

/-! ### handle_clientcall (src/bin/bbusd.c, lines 317-401)

Send failures are modelled by two environment booleans: `srvSendOk` is
the outcome of the `bbus_client_sendmsg` to the provider; `replySendOk`
the outcome of the `bbus_client_sendmsg` under the `respond:` label.  The
result is the list of successfully sent frames plus the C return value. -/

/-- The `respond:` tail of `handle_clientcall`: send a `hdr`/`retobj`
reply to the calling client `cid`. -/
def clientcall_respond (cid : Nat) (hdr : MsgHdr) (retobj : Option (List Nat))
    (replySendOk : Bool) : List SendRec × Int :=
  ([⟨Dest.client cid, hdr, none, retobj⟩], if replySendOk then 0 else -1)

/-- The SRVCALL header built by the `METHOD_REMOTE` branch of
`handle_clientcall` (lines 366-371): type SRVCALL / errcode GOOD, flags
`HAS_META` and `HAS_OBJECT`, payload size `strlen(meta)+1+rawsize(arg)`
truncated by the `(uint16_t)` cast, token set to the caller's token. -/
def srvcall_hdr (meta : List Char) (argobj : List Nat) (cliToken : Nat) : MsgHdr :=
  bbus_hdr_settoken
    (bbus_hdr_setpsize
      (hdr_setflag
        (hdr_setflag (bbus_hdr_build BBUS_MSGTYPE_SRVCALL BBUS_PROT_EGOOD)
          BBUS_PROT_HASMETA)
        BBUS_PROT_HASOBJECT)
      ((meta.length + 1 + argobj.length) % 65536))
    cliToken

/-- `handle_clientcall` from `bbusd.c` (lines 317-401).  `cid` is the
calling client's session id, `cliToken` its assigned token
(`bbus_client_gettoken`). -/
def handle_clientcall (tree : ServiceTree Method) (cid : Nat) (cliToken : Nat)
    (msg : Msg) (srvSendOk replySendOk : Bool) : List SendRec × Int :=
  match bbus_prot_extractmeta msg with
  | none => ([], -1)
  | some mname =>
    match locate_method mname tree with
    | none =>
        clientcall_respond cid (bbus_hdr_build BBUS_MSGTYPE_CLIREPLY BBUS_PROT_ENOMETHOD)
          none replySendOk
    | some mthd =>
      match bbus_prot_extractobj msg with
      | none => ([], -1)
      | some argobj =>
        match mthd with
        | Method.localm f =>
          match f argobj with
          | none =>
              clientcall_respond cid
                (bbus_hdr_build BBUS_MSGTYPE_CLIREPLY BBUS_PROT_EMETHODERR) none replySendOk
          | some retobj =>
              clientcall_respond cid
                (bbus_hdr_setpsize (bbus_hdr_build BBUS_MSGTYPE_CLIREPLY BBUS_PROT_EGOOD)
                  retobj.length)
                (some retobj) replySendOk
        | Method.remote sid =>
          match mname_from_srvcname mname with
          | none =>
              clientcall_respond cid
                (bbus_hdr_build BBUS_MSGTYPE_CLIREPLY BBUS_PROT_EMETHODERR) none replySendOk
          | some meta =>
              if srvSendOk then
                ([⟨Dest.client sid, srvcall_hdr meta argobj cliToken, some meta, some argobj⟩], 0)
              else
                clientcall_respond cid
                  (bbus_hdr_build BBUS_MSGTYPE_CLIREPLY BBUS_PROT_EMETHODERR) none replySendOk

/-! ### register_service (src/bin/bbusd.c, lines 403-479) -/

/-- `register_service` from `bbusd.c`.  The meta string is cut at the
first comma (`index(meta, ',')`), the kept prefix is prepended with
`"bbus."` and inserted as a remote method for session `sid`; the SRVACK
carries `EGOOD` on success, `EMREGERR` otherwise.  Result: new tree, sent
frames, C return value (`ackSendOk` is the outcome of the SRVACK send). -/
def register_service (tree : ServiceTree Method) (sid : Nat) (msg : Msg)
    (ackSendOk : Bool) : ServiceTree Method × List SendRec × Int :=
  let ins : Option (Bool × ServiceTree Method) :=
    match bbus_prot_extractmeta msg with
    | none => none
    | some extrmeta =>
      match splitOnChar ',' extrmeta with
      | [] => none
      | [_] => none
      | f :: _ :: _ =>
          some (insert_method (('b' :: 'b' :: 'u' :: 's' :: '.' :: []) ++ f)
            (Method.remote sid) tree)
  match ins with
  | none =>
      (tree,
       [⟨Dest.client sid, bbus_hdr_build BBUS_MSGTYPE_SRVACK BBUS_PROT_EMREGERR, none, none⟩],
       if ackSendOk then 0 else -1)
  | some r =>
      (r.2,
       [⟨Dest.client sid,
         bbus_hdr_build BBUS_MSGTYPE_SRVACK (if r.1 then BBUS_PROT_EGOOD else BBUS_PROT_EMREGERR),
         none, none⟩],
       if ackSendOk then 0 else -1)

/-! ### pass_srvc_reply (src/bin/bbusd.c, lines 493-532) -/

/-- The CLIREPLY header built by `pass_srvc_reply` on success (lines
517-519): type CLIREPLY / errcode GOOD, flag `HAS_OBJECT`, payload size
`rawsize(obj)`.  No token is copied into it: `bbus_hdr_build` leaves the
token field zero. -/
def srvreply_clireply_hdr (objlen : Nat) : MsgHdr :=
  bbus_hdr_setpsize
    (hdr_setflag (bbus_hdr_build BBUS_MSGTYPE_CLIREPLY BBUS_PROT_EGOOD) BBUS_PROT_HASOBJECT)
    objlen

/-- `pass_srvc_reply` from `bbusd.c`.  `cmap` is the global `caller_map`
(token → caller session id); the function only reads it.  On a token miss
it logs and returns `-1` without sending anything. -/
def pass_srvc_reply (cmap : List (Nat × Nat)) (msg : Msg) (replySendOk : Bool) :
    List SendRec × Int :=
  match alist_find cmap (bbus_hdr_gettoken msg.hdr) with
  | none => ([], -1)
  | some cid =>
    match bbus_prot_extractobj msg with
    | none =>
        ([⟨Dest.client cid, bbus_hdr_build BBUS_MSGTYPE_CLIREPLY BBUS_PROT_EMETHODERR,
           none, none⟩],
         if replySendOk then 0 else -1)
    | some obj =>
        ([⟨Dest.client cid, srvreply_clireply_hdr obj.length, none, some obj⟩],
         if replySendOk then 0 else -1)

/-! ### handle_client (src/bin/bbusd.c, lines 605-736) -/

/-- `bbus_client_gettype` values from `busybus.h` (BBUS_CLIENT_CALLER /
SERVICE / MON / CTL). -/
inductive ClientType : Type where
  | caller : ClientType
  | service : ClientType
  | mon : ClientType
  | ctl : ClientType
deriving DecidableEq

/-- A connected client session: its type and its assigned token
(`bbus_client_settoken` / `gettoken`; nonzero only for callers). -/
structure Client where
  ctype : ClientType
  token : Nat
deriving DecidableEq

/-- What one `handle_client` call did: whether it ran the `cli_close`
path (close + removal from the client list), whether it removed the
session from the monitor list (only the monitor/CLOSE branch does),
the updated service tree, and the frames sent. -/
structure HandleRes where
  closed : Bool
  rmMonitor : Bool
  tree : ServiceTree Method
  sends : List SendRec

/-- `handle_client` from `bbusd.c` (lines 605-736).  `recvOk` is the
outcome of `bbus_client_rcvmsg`; a failed receive goes straight to
`cli_close`.  After a successful receive the message is passed to
`send_to_monitors` and then dispatched on the client type and message
type exactly as the two nested switches do. -/
def handle_client (ct : ClientType) (cid : Nat) (cliToken : Nat)
    (tree : ServiceTree Method) (cmap : List (Nat × Nat)) (msg : Msg)
    (recvOk srvSendOk replySendOk ackSendOk : Bool) : HandleRes :=
  if recvOk = false then ⟨true, false, tree, []⟩
  else
    let mons := send_to_monitors msg
    match ct with
    | ClientType.caller =>
        if msg.hdr.msgtype = BBUS_MSGTYPE_CLICALL then
          let r := handle_clientcall tree cid cliToken msg srvSendOk replySendOk
          ⟨decide (r.2 < 0), false, tree, mons ++ r.1⟩
        else if msg.hdr.msgtype = BBUS_MSGTYPE_CLOSE then ⟨true, false, tree, mons⟩
        else ⟨true, false, tree, mons⟩
    | ClientType.service =>
        if msg.hdr.msgtype = BBUS_MSGTYPE_SRVREG then
          let r := register_service tree cid msg ackSendOk
          ⟨false, false, r.1, mons ++ r.2.1⟩
        else if msg.hdr.msgtype = BBUS_MSGTYPE_SRVUNREG then ⟨false, false, tree, mons⟩
        else if msg.hdr.msgtype = BBUS_MSGTYPE_SRVREPLY then
          let r := pass_srvc_reply cmap msg replySendOk
          ⟨false, false, tree, mons ++ r.1⟩
        else if msg.hdr.msgtype = BBUS_MSGTYPE_CLOSE then ⟨true, false, tree, mons⟩
        else ⟨true, false, tree, mons⟩
    | ClientType.ctl =>
        if msg.hdr.msgtype = BBUS_MSGTYPE_CTRL then ⟨false, false, tree, mons⟩
        else if msg.hdr.msgtype = BBUS_MSGTYPE_CLOSE then ⟨true, false, tree, mons⟩
        else ⟨false, false, tree, mons⟩
    | ClientType.mon =>
        if msg.hdr.msgtype = BBUS_MSGTYPE_CLOSE then ⟨true, true, tree, mons⟩
        else ⟨true, false, tree, mons⟩

/-! ### Daemon state and main-loop events (src/bin/bbusd.c, main loop) -/

/-- Removal of the entry with key `k` (first occurrence), as
`bbus_list_rm` of the element found for that session. -/
def alist_erase {κ : Type} [DecidableEq κ] {β : Type} : List (κ × β) → κ → List (κ × β)
  | [], _ => []
  | (k', v) :: rest, k => if k' = k then rest else (k', v) :: alist_erase rest k

/-- The daemon's global mutable state: the token counter of
`make_token`, the live-client list, `caller_map` (token → caller session
id), `srvc_tree` and the monitor list. -/
structure DState where
  curtok : Nat
  clients : List (Nat × Client)
  cmap : List (Nat × Nat)
  tree : ServiceTree Method
  monitors : List Nat

/-- `accept_client` from `bbusd.c` (lines 544-603): every accepted client
joins the client list; a caller additionally gets a fresh token recorded
in `caller_map`; a monitor additionally joins the monitor list. -/
def accept_client (s : DState) (ct : ClientType) (cid : Nat) : DState :=
  match ct with
  | ClientType.caller =>
      let mt := make_token s.curtok
      { s with curtok := mt.2,
               clients := alist_set s.clients cid ⟨ct, mt.1⟩,
               cmap := alist_set s.cmap mt.1 cid }
  | ClientType.mon =>
      { s with clients := alist_set s.clients cid ⟨ct, 0⟩,
               monitors := s.monitors ++ [cid] }
  | _ => { s with clients := alist_set s.clients cid ⟨ct, 0⟩ }

/-- One observable event of the main loop: accepting a connection, or a
ready client whose message is received and dispatched.  The booleans of
`recv` are, in order, the outcomes of `bbus_client_rcvmsg`, of the send
to a provider, of the send of a reply, and of the send of a SRVACK; a
peer hangup is a `recv` with a failed receive. -/
inductive Event : Type where
  | accept : ClientType → Nat → Event
  | recv : Nat → Msg → Bool → Bool → Bool → Bool → Event

/-- One step of the main loop, returning the new state and the frames
sent during the step. -/
def dstepFull (s : DState) (e : Event) : DState × List SendRec :=
  match e with
  | Event.accept ct cid => (accept_client s ct cid, [])
  | Event.recv cid msg recvOk srvSendOk replySendOk ackSendOk =>
    match alist_find s.clients cid with
    | none => (s, [])
    | some cli =>
      let hr := handle_client cli.ctype cid cli.token s.tree s.cmap msg
                  recvOk srvSendOk replySendOk ackSendOk
      ({ s with tree := hr.tree,
                clients := if hr.closed then alist_erase s.clients cid else s.clients,
                monitors := if hr.rmMonitor then s.monitors.erase cid else s.monitors },
       hr.sends)

def dstep (s : DState) (e : Event) : DState := (dstepFull s e).1

/-- Run the main loop over a list of events. -/
def run (s : DState) : List Event → DState
  | [] => s
  | e :: es => run (dstep s e) es

/-- Modelled from the spec: `lm_echo` — scenario S1 has the echo method
return the caller's object; the object codec it uses (`bbus_obj_parse` /
`bbus_obj_build`) is not under `src/`, so the round trip is modelled as
the identity on the raw buffer. -/
def lm_echo : List Nat → Option (List Nat) := fun arg => some arg

/-- The daemon's state right after startup: empty maps, token counter 0,
and the one local method `bbus.bbusd.echo` registered by
`REG_LOCAL_METHOD`. -/
def init_state : DState :=
  ⟨0, [], [],
   (insert_method ("bbus.bbusd.echo".toList) (Method.localm lm_echo) ServiceTree.empty).2,
   []⟩

/-! ### Observables of a trace, for the pending-call invariant (C6)

These definitions formalize the right-hand side of the claimed
invariant: "a CLICALL has been forwarded to a provider under that token,
no matching SRVREPLY has since arrived, and the provider has not
died". -/

/-- Sessions to which this step forwarded a SRVCALL carrying `tok`. -/
def fwdTargets (tok : Nat) (sends : List SendRec) : List Nat :=
  sends.filterMap (fun r =>
    match r.dest with
    | Dest.client p =>
        if r.hdr.msgtype = BBUS_MSGTYPE_SRVCALL ∧ r.hdr.token = tok then some p else none
    | _ => none)

/-- Whether this event is the successful receipt of a SRVREPLY whose
token is `tok`. -/
def srvReplyArrived (tok : Nat) : Event → Bool
  | Event.recv _ msg true _ _ _ =>
      decide (msg.hdr.msgtype = BBUS_MSGTYPE_SRVREPLY ∧ bbus_hdr_gettoken msg.hdr = tok)
  | _ => false

/-- Whether session `p` is still in the live-client set. -/
def provider_alive (p : Nat) (s : DState) : Bool :=
  (alist_find s.clients p).isSome

/-- `pendingSpec s tok es = true` iff, along the run of `es` from `s`,
some step forwarded a SRVCALL with token `tok` to a provider, no
SRVREPLY with that token arrived afterwards, and that provider is still
alive at the end of the run. -/
def pendingSpec (s : DState) (tok : Nat) : List Event → Bool
  | [] => false
  | e :: rest =>
      pendingSpec (dstep s e) tok rest ||
        ((fwdTargets tok (dstepFull s e).2).any
          (fun p => !(rest.any (srvReplyArrived tok)) &&
                    provider_alive p (run (dstep s e) rest)))

/-- The tokens handed out by `make_token` to the callers accepted along a
trace. -/
def tokensAssigned (s : DState) : List Event → List Nat
  | [] => []
  | e :: es =>
      match e with
      | Event.accept ClientType.caller _ =>
          (make_token s.curtok).1 :: tokensAssigned (dstep s e) es
      | _ => tokensAssigned (dstep s e) es

/-- Frames destined to a monitor session, out of a transcript. -/
def monitor_frames (l : List SendRec) : List SendRec :=
  l.filter (fun r =>
    match r.dest with
    | Dest.monitor _ => true
    | _ => false)

/-- The message types `handle_client` dispatches (rather than treating as
unexpected) for each client type, read off the four switch statements of
`bbusd.c` lines 623-727. -/
def expected_msgtype (ct : ClientType) (mt : Nat) : Bool :=
  match ct with
  | ClientType.caller =>
      decide (mt = BBUS_MSGTYPE_CLICALL ∨ mt = BBUS_MSGTYPE_CLOSE)
  | ClientType.service =>
      decide (mt = BBUS_MSGTYPE_SRVREG ∨ mt = BBUS_MSGTYPE_SRVUNREG ∨
              mt = BBUS_MSGTYPE_SRVREPLY ∨ mt = BBUS_MSGTYPE_CLOSE)
  | ClientType.ctl =>
      decide (mt = BBUS_MSGTYPE_CTRL ∨ mt = BBUS_MSGTYPE_CLOSE)
  | ClientType.mon =>
      decide (mt = BBUS_MSGTYPE_CLOSE)


/-! ### Concrete inputs used by the witnesses and counterexamples -/

/-- An SRVREG message whose meta has the spec's registration form
`"<service-path>,<method-name>,<arg-descr>,<ret-descr>"`. -/
def c4_regmsg : Msg :=
  ⟨⟨BBUS_MAGIC, BBUS_MSGTYPE_SRVREG, 0, 0, 0, 12, 1⟩, some ("foo,bar,s,s".toList), none⟩

/-- A CLICALL to the full path the spec says the registration above
creates. -/
def c4_callmsg : Msg :=
  ⟨⟨BBUS_MAGIC, BBUS_MSGTYPE_CLICALL, 0, 0, 0, 14, 3⟩, some ("bbus.foo.bar".toList), some [42]⟩

/-- A registry holding one entry, at path `a.b`. -/
def c5_tree : ServiceTree Nat := (insert_method ("a.b".toList) 5 ServiceTree.empty).2

/-- Daemon state with caller session 0 (token 1), provider session 9, and
a remote method registered at `bbus.foo.bar` for session 9. -/
def c1_state : DState :=
  ⟨1, [(0, ⟨ClientType.caller, 1⟩), (9, ⟨ClientType.service, 0⟩)], [(1, 0)],
   (insert_method ("bbus.foo.bar".toList) (Method.remote 9) ServiceTree.empty).2, []⟩

/-- A CLICALL to `bbus.foo.bar` carrying one argument object. -/
def c1_msg : Msg :=
  ⟨⟨BBUS_MAGIC, BBUS_MSGTYPE_CLICALL, 0, 0, 0, 17, 3⟩, some ("bbus.foo.bar".toList), some [42]⟩

/-- Daemon state with provider session 9 and a caller-map entry
`5 → session 0`. -/
def c2_state : DState :=
  ⟨0, [(9, ⟨ClientType.service, 0⟩)], [(5, 0)], ServiceTree.empty, []⟩

/-- A SRVREPLY carrying token 5 and an object. -/
def c2_msg : Msg :=
  ⟨⟨BBUS_MAGIC, BBUS_MSGTYPE_SRVREPLY, 0, 0, 5, 4, 2⟩, none, some [7]⟩

/-- Daemon state with one caller session and an empty method registry. -/
def c3_state : DState :=
  ⟨1, [(0, ⟨ClientType.caller, 1⟩)], [(1, 0)], ServiceTree.empty, []⟩

/-- A CLICALL to a path not present in the registry. -/
def c3_msg : Msg :=
  ⟨⟨BBUS_MAGIC, BBUS_MSGTYPE_CLICALL, 0, 0, 0, 16, 3⟩, some ("no.such.method".toList), some [1]⟩

/-- Daemon state with a caller and a connected monitor (session 5). -/
def c7_state : DState :=
  ⟨1, [(0, ⟨ClientType.caller, 1⟩), (5, ⟨ClientType.mon, 0⟩)], [(1, 0)],
   ServiceTree.empty, [5]⟩

/-- A CLICALL observed while the monitor is connected. -/
def c7_msg : Msg :=
  ⟨⟨BBUS_MAGIC, BBUS_MSGTYPE_CLICALL, 0, 0, 0, 5, 3⟩, some ("x.y".toList), some [1]⟩

/-- Daemon state with one control-typed session (id 4). -/
def c9_state : DState :=
  ⟨0, [(4, ⟨ClientType.ctl, 0⟩)], [], ServiceTree.empty, []⟩

/-- A CLICALL, which is not a type the daemon handles for control
clients. -/
def c9_msg : Msg :=
  ⟨⟨BBUS_MAGIC, BBUS_MSGTYPE_CLICALL, 0, 0, 0, 0, 0⟩, none, none⟩

/-- Daemon state with one caller session (id 0, token 1). -/
def c9w_state : DState :=
  ⟨1, [(0, ⟨ClientType.caller, 1⟩)], [(1, 0)], ServiceTree.empty, []⟩

/-- A SRVREPLY, which is not a type the daemon handles for callers. -/
def c9w_msg : Msg :=
  ⟨⟨BBUS_MAGIC, BBUS_MSGTYPE_SRVREPLY, 0, 0, 0, 0, 0⟩, none, none⟩


/-! ## Helper lemmas -/

theorem alist_find_set {κ : Type} [DecidableEq κ] {β : Type}
    (l : List (κ × β)) (k k' : κ) (v : β) :
    alist_find (alist_set l k v) k' = if k = k' then some v else alist_find l k' := by
  induction l with
  | nil =>
    by_cases h : k = k' <;> simp [alist_set, alist_find, h]
  | cons hd tl ih =>
    obtain ⟨k0, v0⟩ := hd
    by_cases h0 : k0 = k
    · subst h0
      by_cases h : k0 = k' <;> simp [alist_set, alist_find, h]
    · by_cases h : k0 = k'
      · subst h
        have hkk : ¬ k = k0 := fun he => h0 he.symm
        simp [alist_set, alist_find, h0, hkk, ih]
      · simp [alist_set, alist_find, h0, h, ih]

theorem alist_set_of_find {κ : Type} [DecidableEq κ] {β : Type}
    (l : List (κ × β)) (k : κ) (v : β) (h : alist_find l k = some v) :
    alist_set l k v = l := by
  induction l with
  | nil => simp [alist_find] at h
  | cons hd tl ih =>
    obtain ⟨k0, v0⟩ := hd
    by_cases h0 : k0 = k
    · subst h0
      simp [alist_find] at h
      simp [alist_set, h]
    · simp [alist_find, h0] at h
      simp [alist_set, h0, ih h]

theorem splitOnChar_ne_nil (c : Char) (s : List Char) : splitOnChar c s ≠ [] := by
  cases s with
  | nil => simp [splitOnChar]
  | cons x rest =>
    simp only [splitOnChar]
    by_cases h : x = c
    · simp [h]
    · simp only [h, if_false]
      cases splitOnChar c rest <;> simp

theorem make_token_eq (s : Nat) (h : s ≤ UINT32_MAX) :
    make_token s = (if s = UINT32_MAX then 1 else s + 1, if s = UINT32_MAX then 1 else s + 1) := by
  unfold UINT32_MAX at *
  simp only [make_token, UINT32_MAX]
  split_ifs with hs
  · decide
  · have hm : (s + 1) % 4294967296 = s + 1 := Nat.mod_eq_of_lt (by omega)
    rw [hm]

theorem do_locate_empty {α : Type} (comps : List (List Char)) :
    do_locate_method comps (ServiceTree.empty : ServiceTree α) = none := by
  match comps with
  | [] => rfl
  | [p] => rfl
  | p :: q :: rest => rfl

theorem do_insert_occupied {α : Type} (comps : List (List Char)) :
    ∀ (t : ServiceTree α) (e' : α),
      (do_locate_method comps t).isSome = true →
      do_insert_method comps e' t = (false, t) := by
  induction comps with
  | nil =>
    intro t e' h
    simp [do_locate_method] at h
  | cons p rest ih =>
    intro t e' h
    obtain ⟨sub, mets⟩ := t
    match rest with
    | [] =>
      simp only [do_locate_method] at h
      simp only [do_insert_method]
      cases hf : alist_find mets p with
      | none => rw [hf] at h; simp at h
      | some e0 => simp
    | q :: rest2 =>
      simp only [do_locate_method] at h
      cases hf : alist_find sub p with
      | none => rw [hf] at h; simp at h
      | some next =>
        rw [hf] at h
        simp only [do_insert_method, hf, Option.getD_some]
        rw [ih next e' h]
        simp [alist_set_of_find sub p next hf]

theorem do_insert_fresh {α : Type} (comps : List (List Char)) :
    ∀ (t : ServiceTree α) (e' : α),
      comps ≠ [] →
      do_locate_method comps t = none →
      (do_insert_method comps e' t).1 = true ∧
      do_locate_method comps (do_insert_method comps e' t).2 = some e' := by
  induction comps with
  | nil =>
    intro t e' hne h
    exact absurd rfl hne
  | cons p rest ih =>
    intro t e' hne h
    obtain ⟨sub, mets⟩ := t
    match rest with
    | [] =>
      simp only [do_locate_method] at h
      simp only [do_insert_method, h]
      constructor
      · trivial
      · simp only [do_locate_method]
        rw [alist_find_set mets p p e']
        simp
    | q :: rest2 =>
      simp only [do_locate_method] at h
      cases hf : alist_find sub p with
      | none =>
        have hemp : do_locate_method (q :: rest2) (ServiceTree.empty : ServiceTree α) = none :=
          do_locate_empty _
        have hih := ih ServiceTree.empty e' (by simp) hemp
        simp only [do_insert_method, hf, Option.getD_none]
        refine ⟨hih.1, ?_⟩
        simp only [do_locate_method]
        rw [alist_find_set sub p p _]
        simp only [if_pos rfl]
        exact hih.2
      | some next =>
        rw [hf] at h
        have hih := ih next e' (by simp) h
        simp only [do_insert_method, hf, Option.getD_some]
        refine ⟨hih.1, ?_⟩
        simp only [do_locate_method]
        rw [alist_find_set sub p p _]
        simp only [if_pos rfl]
        exact hih.2

theorem srvcall_hdr_flags (leaf : List Char) (arg : List Nat) (tk : Nat) :
    (srvcall_hdr leaf arg tk).flags = 3 := rfl

theorem srvreply_clireply_hdr_flags (n : Nat) :
    (srvreply_clireply_hdr n).flags = 2 := rfl

theorem mname_eq_getLast (path : List Char) (h : 2 ≤ (splitOnChar '.' path).length) :
    mname_from_srvcname path = some ((splitOnChar '.' path).getLastD []) := by
  rcases hsp : splitOnChar '.' path with _ | ⟨x, _ | ⟨y, rest⟩⟩
  · rw [hsp] at h; simp at h
  · rw [hsp] at h; simp at h
  · simp [mname_from_srvcname, hsp]

theorem monitor_frames_nil : monitor_frames [] = [] := rfl

theorem monitor_frames_append (a b : List SendRec) :
    monitor_frames (a ++ b) = monitor_frames a ++ monitor_frames b := by
  simp [monitor_frames, List.filter_append]

theorem monitor_frames_client (c : Nat) (hdr : MsgHdr) (m : Option (List Char))
    (o : Option (List Nat)) :
    monitor_frames [⟨Dest.client c, hdr, m, o⟩] = [] := by
  simp [monitor_frames]

theorem handle_clientcall_no_monitor (tree : ServiceTree Method) (cid tk : Nat) (msg : Msg)
    (a b : Bool) :
    monitor_frames (handle_clientcall tree cid tk msg a b).1 = [] := by
  unfold handle_clientcall clientcall_respond
  repeat' split
  all_goals simp [monitor_frames]

theorem register_service_no_monitor (tree : ServiceTree Method) (sid : Nat) (msg : Msg)
    (a : Bool) :
    monitor_frames (register_service tree sid msg a).2.1 = [] := by
  unfold register_service
  repeat' split
  all_goals simp [monitor_frames]

theorem pass_srvc_reply_no_monitor (cmap : List (Nat × Nat)) (msg : Msg) (a : Bool) :
    monitor_frames (pass_srvc_reply cmap msg a).1 = [] := by
  unfold pass_srvc_reply
  repeat' split
  all_goals simp [monitor_frames]

theorem cmap_run_characterization (es : List Event) :
    ∀ (s : DState) (tok : Nat),
      (alist_find (run s es).cmap tok).isSome = true ↔
        tok ∈ tokensAssigned s es ∨ (alist_find s.cmap tok).isSome = true := by
  induction es with
  | nil =>
    intro s tok
    simp [run, tokensAssigned]
  | cons e rest ih =>
    intro s tok
    have hrun : run s (e :: rest) = run (dstep s e) rest := rfl
    rw [hrun, ih (dstep s e) tok]
    cases e with
    | accept ct cid =>
      cases ct with
      | caller =>
        have hc : (dstep s (Event.accept ClientType.caller cid)).cmap =
            alist_set s.cmap (make_token s.curtok).1 cid := rfl
        have ht : tokensAssigned s (Event.accept ClientType.caller cid :: rest) =
            (make_token s.curtok).1 ::
              tokensAssigned (dstep s (Event.accept ClientType.caller cid)) rest := rfl
        rw [hc, ht]
        rw [alist_find_set s.cmap (make_token s.curtok).1 tok cid]
        by_cases he : (make_token s.curtok).1 = tok
        · simp [he]
        · simp [he]
          tauto
      | service =>
        have hc : (dstep s (Event.accept ClientType.service cid)).cmap = s.cmap := rfl
        have ht : tokensAssigned s (Event.accept ClientType.service cid :: rest) =
            tokensAssigned (dstep s (Event.accept ClientType.service cid)) rest := rfl
        rw [hc, ht]
      | mon =>
        have hc : (dstep s (Event.accept ClientType.mon cid)).cmap = s.cmap := rfl
        have ht : tokensAssigned s (Event.accept ClientType.mon cid :: rest) =
            tokensAssigned (dstep s (Event.accept ClientType.mon cid)) rest := rfl
        rw [hc, ht]
      | ctl =>
        have hc : (dstep s (Event.accept ClientType.ctl cid)).cmap = s.cmap := rfl
        have ht : tokensAssigned s (Event.accept ClientType.ctl cid :: rest) =
            tokensAssigned (dstep s (Event.accept ClientType.ctl cid)) rest := rfl
        rw [hc, ht]
    | recv cid msg r a b c =>
      have ht : tokensAssigned s (Event.recv cid msg r a b c :: rest) =
          tokensAssigned (dstep s (Event.recv cid msg r a b c)) rest := rfl
      have hc : (dstep s (Event.recv cid msg r a b c)).cmap = s.cmap := by
        unfold dstep dstepFull
        cases hf : alist_find s.clients cid with
        | none => simp [hf]
        | some cli => simp [hf]
      rw [ht, hc]


/-! ## C1: CLICALL routed to a remote method -/

/-- Claim C1, counterexample to the claim as stated: in `c1_state` the
send of the SRVCALL to the provider fails; the caller does get a CLIREPLY
with errcode METHODERR, but the pending entry (token 1 of the caller map)
is not dropped, so the conjunction claimed for the send-failure case is
false at this input. -/
theorem C1_counterexample :
    ¬ ((dstepFull c1_state (Event.recv 0 c1_msg true false true true)).2 =
         [⟨Dest.client 0, bbus_hdr_build BBUS_MSGTYPE_CLIREPLY BBUS_PROT_EMETHODERR,
           none, none⟩] ∧
       alist_find (dstepFull c1_state (Event.recv 0 c1_msg true false true true)).1.cmap 1 =
         none) := by
  decide

/-- Claim C1, amended: for every CLICALL from a caller whose method path
resolves to a remote method entry and contains a dot (so that
`mname_from_srvcname` yields the leaf name, as holds for every path
registered through `register_service`), the daemon sends the registering
provider an SRVCALL frame whose meta is the last dotted component of the
path, whose object is the callers argument, with flags HAS_META and
HAS_OBJECT set and token equal to the callers assigned token; if that
send fails, the caller receives a CLIREPLY with errcode METHODERR and
the caller-map is left untouched (no per-call pending entry exists, so
nothing is dropped). -/
theorem C1_remote_forward (s : DState) (cid tk p : Nat) (msg : Msg) (path leaf : List Char)
    (arg : List Nat) (srvOk repOk ackOk : Bool)
    (hcli : alist_find s.clients cid = some ⟨ClientType.caller, tk⟩)
    (hty : msg.hdr.msgtype = BBUS_MSGTYPE_CLICALL)
    (hmeta : bbus_prot_extractmeta msg = some path)
    (hloc : locate_method path s.tree = some (Method.remote p))
    (hobj : bbus_prot_extractobj msg = some arg)
    (hleaf : mname_from_srvcname path = some leaf) :
    (srvOk = true →
      (dstepFull s (Event.recv cid msg true srvOk repOk ackOk)).2 =
        [⟨Dest.client p, srvcall_hdr leaf arg tk, some leaf, some arg⟩] ∧
      (srvcall_hdr leaf arg tk).msgtype = BBUS_MSGTYPE_SRVCALL ∧
      hdr_isflagset (srvcall_hdr leaf arg tk) BBUS_PROT_HASMETA = true ∧
      hdr_isflagset (srvcall_hdr leaf arg tk) BBUS_PROT_HASOBJECT = true ∧
      (srvcall_hdr leaf arg tk).token = tk) ∧
    (srvOk = false →
      (dstepFull s (Event.recv cid msg true srvOk repOk ackOk)).2 =
        [⟨Dest.client cid, bbus_hdr_build BBUS_MSGTYPE_CLIREPLY BBUS_PROT_EMETHODERR,
          none, none⟩] ∧
      (dstepFull s (Event.recv cid msg true srvOk repOk ackOk)).1.cmap = s.cmap) := by
  constructor
  · intro hs
    subst hs
    refine ⟨?_, rfl, by simp [hdr_isflagset, srvcall_hdr_flags]; decide,
      by simp [hdr_isflagset, srvcall_hdr_flags]; decide, rfl⟩
    simp [dstepFull, hcli, handle_client, handle_clientcall, hty, hmeta, hloc, hobj, hleaf,
      send_to_monitors]
  · intro hs
    subst hs
    constructor
    · simp [dstepFull, hcli, handle_client, handle_clientcall, hty, hmeta, hloc, hobj, hleaf,
        send_to_monitors, clientcall_respond]
    · simp [dstepFull, hcli, handle_client, handle_clientcall, hty, hmeta, hloc, hobj, hleaf,
        send_to_monitors, clientcall_respond]

/-- Claim C1, witness: the amended theorem applied to `c1_state` and
`c1_msg` with the provider send succeeding. -/
theorem C1_witness :
    (alist_find c1_state.clients 0 = some ⟨ClientType.caller, 1⟩ ∧
     c1_msg.hdr.msgtype = BBUS_MSGTYPE_CLICALL ∧
     bbus_prot_extractmeta c1_msg = some ("bbus.foo.bar".toList) ∧
     locate_method ("bbus.foo.bar".toList) c1_state.tree = some (Method.remote 9) ∧
     bbus_prot_extractobj c1_msg = some [42] ∧
     mname_from_srvcname ("bbus.foo.bar".toList) = some ("bar".toList)) ∧
    ((true = true →
       (dstepFull c1_state (Event.recv 0 c1_msg true true true true)).2 =
         [⟨Dest.client 9, srvcall_hdr ("bar".toList) [42] 1, some ("bar".toList), some [42]⟩] ∧
       (srvcall_hdr ("bar".toList) [42] 1).msgtype = BBUS_MSGTYPE_SRVCALL ∧
       hdr_isflagset (srvcall_hdr ("bar".toList) [42] 1) BBUS_PROT_HASMETA = true ∧
       hdr_isflagset (srvcall_hdr ("bar".toList) [42] 1) BBUS_PROT_HASOBJECT = true ∧
       (srvcall_hdr ("bar".toList) [42] 1).token = 1) ∧
     (true = false →
       (dstepFull c1_state (Event.recv 0 c1_msg true true true true)).2 =
         [⟨Dest.client 0, bbus_hdr_build BBUS_MSGTYPE_CLIREPLY BBUS_PROT_EMETHODERR,
           none, none⟩] ∧
       (dstepFull c1_state (Event.recv 0 c1_msg true true true true)).1.cmap =
         c1_state.cmap)) :=
  ⟨⟨rfl, rfl, rfl, rfl, rfl, rfl⟩,
   C1_remote_forward c1_state 0 1 9 c1_msg ("bbus.foo.bar".toList) ("bar".toList) [42]
     true true true rfl rfl rfl rfl rfl rfl⟩

/-! ## C2: SRVREPLY passed back to the caller -/

/-- Claim C2, counterexample to the claim as stated: in `c2_state` the
provider reply with token 5 hits the map entry; the CLIREPLY actually
sent carries token 0 (not 5), and the entry for token 5 is still in the
map afterwards, so the claimed conjunction is false at this input. -/
theorem C2_counterexample :
    ¬ (((dstepFull c2_state (Event.recv 9 c2_msg true true true true)).2.map
          (fun r => r.hdr.token)) = [5] ∧
       alist_find (dstepFull c2_state (Event.recv 9 c2_msg true true true true)).1.cmap 5 =
         none) := by
  decide

/-- Claim C2, amended: for every SRVREPLY received from a provider, if the
token is present in the caller map the daemon sends the recorded caller a
CLIREPLY built afresh by bbus_hdr_build (its token field is 0, the
providers token is not copied), with flag HAS_OBJECT and the providers
object on success (errcode METHODERR and no object if object extraction
fails), and the map entry is NOT removed; if the token is not present the
reply is discarded with a warning and nothing is sent. -/
theorem C2_srvreply (s : DState) (cid tk0 : Nat) (msg : Msg) (srvOk repOk ackOk : Bool)
    (hcli : alist_find s.clients cid = some ⟨ClientType.service, tk0⟩)
    (hty : msg.hdr.msgtype = BBUS_MSGTYPE_SRVREPLY) :
    (alist_find s.cmap (bbus_hdr_gettoken msg.hdr) = none →
       (dstepFull s (Event.recv cid msg true srvOk repOk ackOk)).2 = [] ∧
       (dstepFull s (Event.recv cid msg true srvOk repOk ackOk)).1.cmap = s.cmap) ∧
    (∀ c, alist_find s.cmap (bbus_hdr_gettoken msg.hdr) = some c →
       (dstepFull s (Event.recv cid msg true srvOk repOk ackOk)).1.cmap = s.cmap ∧
       (∀ obj, bbus_prot_extractobj msg = some obj →
          (dstepFull s (Event.recv cid msg true srvOk repOk ackOk)).2 =
            [⟨Dest.client c, srvreply_clireply_hdr obj.length, none, some obj⟩] ∧
          hdr_isflagset (srvreply_clireply_hdr obj.length) BBUS_PROT_HASOBJECT = true ∧
          (srvreply_clireply_hdr obj.length).errcode = BBUS_PROT_EGOOD ∧
          (srvreply_clireply_hdr obj.length).token = 0) ∧
       (bbus_prot_extractobj msg = none →
          (dstepFull s (Event.recv cid msg true srvOk repOk ackOk)).2 =
            [⟨Dest.client c, bbus_hdr_build BBUS_MSGTYPE_CLIREPLY BBUS_PROT_EMETHODERR,
              none, none⟩])) := by
  have hneq1 : ¬ (BBUS_MSGTYPE_SRVREPLY = BBUS_MSGTYPE_SRVREG) := by decide
  have hneq2 : ¬ (BBUS_MSGTYPE_SRVREPLY = BBUS_MSGTYPE_SRVUNREG) := by decide
  constructor
  · intro hmiss
    constructor
    · simp [dstepFull, hcli, handle_client, pass_srvc_reply, hty, hmiss, send_to_monitors,
        hneq1, hneq2]
    · simp [dstepFull, hcli, handle_client, pass_srvc_reply, hty, hmiss, send_to_monitors,
        hneq1, hneq2]
  · intro c hhit
    refine ⟨?_, ?_, ?_⟩
    · simp [dstepFull, hcli, handle_client, pass_srvc_reply, hty, hhit, send_to_monitors,
        hneq1, hneq2]
    · intro obj hobj
      refine ⟨?_, by simp [hdr_isflagset, srvreply_clireply_hdr_flags]; decide, rfl, rfl⟩
      simp [dstepFull, hcli, handle_client, pass_srvc_reply, hty, hhit, hobj, send_to_monitors,
        hneq1, hneq2]
    · intro hobj
      simp [dstepFull, hcli, handle_client, pass_srvc_reply, hty, hhit, hobj, send_to_monitors,
        hneq1, hneq2]

/-- Claim C2, witness: the amended theorem applied to `c2_state` and
`c2_msg` (token 5 hits, object extraction succeeds). -/
theorem C2_witness :
    (alist_find c2_state.clients 9 = some ⟨ClientType.service, 0⟩ ∧
     c2_msg.hdr.msgtype = BBUS_MSGTYPE_SRVREPLY ∧
     alist_find c2_state.cmap (bbus_hdr_gettoken c2_msg.hdr) = some 0 ∧
     bbus_prot_extractobj c2_msg = some [7]) ∧
    ((dstepFull c2_state (Event.recv 9 c2_msg true true true true)).1.cmap = c2_state.cmap ∧
     (dstepFull c2_state (Event.recv 9 c2_msg true true true true)).2 =
       [⟨Dest.client 0, srvreply_clireply_hdr 1, none, some [7]⟩] ∧
     (srvreply_clireply_hdr 1).token = 0) := by
  have h := C2_srvreply c2_state 9 0 c2_msg true true true rfl rfl
  have h2 := h.2 0 rfl
  exact ⟨⟨rfl, rfl, rfl, rfl⟩, h2.1, (h2.2.1 [7] rfl).1, (h2.2.1 [7] rfl).2.2.2⟩

/-! ## C3: CLICALL to an unknown path -/

/-- Claim C3: for every CLICALL whose meta names a path with no entry in
the method registry, the caller receives a CLIREPLY with errcode NOMETHOD
and no object (the HAS_OBJECT flag is clear and no object is attached). -/
theorem C3_nomethod_reply (s : DState) (cid tk : Nat) (msg : Msg) (path : List Char)
    (srvOk repOk ackOk : Bool)
    (hcli : alist_find s.clients cid = some ⟨ClientType.caller, tk⟩)
    (hty : msg.hdr.msgtype = BBUS_MSGTYPE_CLICALL)
    (hmeta : bbus_prot_extractmeta msg = some path)
    (hloc : locate_method path s.tree = none) :
    (dstepFull s (Event.recv cid msg true srvOk repOk ackOk)).2 =
      [⟨Dest.client cid, bbus_hdr_build BBUS_MSGTYPE_CLIREPLY BBUS_PROT_ENOMETHOD, none, none⟩] ∧
    (bbus_hdr_build BBUS_MSGTYPE_CLIREPLY BBUS_PROT_ENOMETHOD).errcode = BBUS_PROT_ENOMETHOD ∧
    (bbus_hdr_build BBUS_MSGTYPE_CLIREPLY BBUS_PROT_ENOMETHOD).msgtype = BBUS_MSGTYPE_CLIREPLY ∧
    hdr_isflagset (bbus_hdr_build BBUS_MSGTYPE_CLIREPLY BBUS_PROT_ENOMETHOD) BBUS_PROT_HASOBJECT
      = false := by
  refine ⟨?_, rfl, rfl, rfl⟩
  simp [dstepFull, hcli, handle_client, handle_clientcall, hty, hmeta, hloc,
    send_to_monitors, clientcall_respond]

/-- Claim C3, witness: the theorem applied to `c3_state` and the call to
the unregistered path `no.such.method`. -/
theorem C3_witness :
    (alist_find c3_state.clients 0 = some ⟨ClientType.caller, 1⟩ ∧
     c3_msg.hdr.msgtype = BBUS_MSGTYPE_CLICALL ∧
     bbus_prot_extractmeta c3_msg = some ("no.such.method".toList) ∧
     locate_method ("no.such.method".toList) c3_state.tree = none) ∧
    ((dstepFull c3_state (Event.recv 0 c3_msg true true true true)).2 =
       [⟨Dest.client 0, bbus_hdr_build BBUS_MSGTYPE_CLIREPLY BBUS_PROT_ENOMETHOD, none, none⟩] ∧
     (bbus_hdr_build BBUS_MSGTYPE_CLIREPLY BBUS_PROT_ENOMETHOD).errcode = BBUS_PROT_ENOMETHOD ∧
     (bbus_hdr_build BBUS_MSGTYPE_CLIREPLY BBUS_PROT_ENOMETHOD).msgtype = BBUS_MSGTYPE_CLIREPLY ∧
     hdr_isflagset (bbus_hdr_build BBUS_MSGTYPE_CLIREPLY BBUS_PROT_ENOMETHOD)
       BBUS_PROT_HASOBJECT = false) :=
  ⟨⟨rfl, rfl, rfl, rfl⟩,
   C3_nomethod_reply c3_state 0 1 c3_msg ("no.such.method".toList) true true true
     rfl rfl rfl rfl⟩


/-! ## C4: SRVREG registration path -/

/-- Claim C4: the code drops the method-name component of the
registration meta.  Registering the spec-form meta `foo,bar,s,s` creates
the remote entry at `bbus.foo` (the text before the first comma, prefixed
with `bbus.`) and not at `bbus.foo.bar`; a subsequent CLICALL to
`bbus.foo.bar` is answered with CLIREPLY NOMETHOD instead of being routed
to the provider.  The SRVACK with errcode GOOD is sent as claimed. -/
theorem C4_register_drops_method_name :
    locate_method ("bbus.foo.bar".toList) (register_service ServiceTree.empty 9 c4_regmsg true).1 =
      none ∧
    locate_method ("bbus.foo".toList) (register_service ServiceTree.empty 9 c4_regmsg true).1 =
      some (Method.remote 9) ∧
    ((register_service ServiceTree.empty 9 c4_regmsg true).2.1.map
        (fun r => (r.hdr.msgtype, r.hdr.errcode))) = [(BBUS_MSGTYPE_SRVACK, BBUS_PROT_EGOOD)] ∧
    (handle_clientcall (register_service ServiceTree.empty 9 c4_regmsg true).1 0 1 c4_callmsg
        true true).1 =
      [⟨Dest.client 0, bbus_hdr_build BBUS_MSGTYPE_CLIREPLY BBUS_PROT_ENOMETHOD, none, none⟩] :=
  ⟨rfl, rfl, rfl, rfl⟩

/-! ## C5: uniqueness of method paths in the registry -/

/-- Claim C5: method paths are unique across the registry.  Inserting at a
path whose leaf is already occupied fails and leaves the registry
unchanged, while inserting at a fresh path succeeds (creating the
intermediate service nodes) and a subsequent lookup of that path returns
the inserted entry. -/
theorem C5_registry_unique {α : Type} (path : List Char) (e' : α) (t : ServiceTree α) :
    ((locate_method path t).isSome = true → insert_method path e' t = (false, t)) ∧
    (locate_method path t = none →
      (insert_method path e' t).1 = true ∧
      locate_method path (insert_method path e' t).2 = some e') := by
  constructor
  · intro h
    exact do_insert_occupied _ t e' h
  · intro h
    exact do_insert_fresh _ t e' (splitOnChar_ne_nil '.' path) h

/-- Claim C5, witness: the theorem applied to the one-entry registry
`c5_tree` (occupied leaf at `a.b`) and to the empty registry (fresh
insert at `a.b`). -/
theorem C5_witness :
    ((locate_method ("a.b".toList) c5_tree).isSome = true ∧
     insert_method ("a.b".toList) 6 c5_tree = (false, c5_tree)) ∧
    (locate_method ("a.b".toList) (ServiceTree.empty : ServiceTree Nat) = none ∧
     (insert_method ("a.b".toList) (5 : Nat) ServiceTree.empty).1 = true ∧
     locate_method ("a.b".toList) (insert_method ("a.b".toList) (5 : Nat) ServiceTree.empty).2 =
       some 5) :=
  ⟨⟨by decide, (C5_registry_unique ("a.b".toList) 6 c5_tree).1 (by decide)⟩,
   ⟨by decide, (C5_registry_unique ("a.b".toList) 5 ServiceTree.empty).2 (by decide)⟩⟩

/-! ## C6: the pending-call map invariant -/

/-- Claim C6, counterexample to the claim as stated: after the single
event of accepting a caller (no CLICALL ever forwarded), the caller map
already holds an entry for token 1, so the claimed equivalence between
map membership and a forwarded-but-unanswered call is false in this
reachable state. -/
theorem C6_counterexample :
    ¬ (((alist_find (run init_state [Event.accept ClientType.caller 7]).cmap 1).isSome = true) ↔
       (pendingSpec init_state 1 [Event.accept ClientType.caller 7] = true)) := by
  decide

/-- Claim C6, amended: in every reachable state of the main loop, an
entry (token, caller) exists in the caller map if and only if a caller
session was accepted and assigned that token along the trace: entries are
created by accept_client when a caller connects, and are never removed -
not by forwarding a CLICALL, not by a SRVREPLY, and not by a client
death. -/
theorem C6_caller_map_tokens (es : List Event) (tok : Nat) :
    (alist_find (run init_state es).cmap tok).isSome = true ↔
      tok ∈ tokensAssigned init_state es := by
  have h := cmap_run_characterization es init_state tok
  have hinit : (alist_find init_state.cmap tok).isSome = false := rfl
  rw [hinit] at h
  simpa using h

/-! ## C7: monitor mirroring -/

/-- Claim C7, counterexample to the claim as stated: with monitor session
5 connected in `c7_state`, handling a received CLICALL produces no frame
addressed to the monitor, so the monitor does not see the message exactly
once. -/
theorem C7_counterexample :
    c7_state.monitors = [5] ∧
    ¬ (((dstepFull c7_state (Event.recv 0 c7_msg true true true true)).2.countP
          (fun r => decide (r.dest = Dest.monitor 5))) = 1) := by
  decide

/-- Claim C7, amended: `send_to_monitors` is invoked on every
successfully received message before dispatch, but it is a stub (its body
is a bare return): no step of the daemon ever emits a frame addressed to
a monitor session. -/
theorem C7_no_monitor_output (s : DState) (e : Event) :
    monitor_frames (dstepFull s e).2 = [] := by
  cases e with
  | accept ct cid => simp [dstepFull, monitor_frames]
  | recv cid msg r a b c =>
    simp only [dstepFull]
    cases hf : alist_find s.clients cid with
    | none => simp [monitor_frames]
    | some cli =>
      simp only
      unfold handle_client
      split
      · simp [monitor_frames]
      · cases hct : cli.ctype <;>
          simp only [send_to_monitors] <;>
          repeat' split
        all_goals
          simp [send_to_monitors, monitor_frames_append, monitor_frames_nil,
            handle_clientcall_no_monitor, register_service_no_monitor,
            pass_srvc_reply_no_monitor]

/-! ## C8: token generation -/

/-- Claim C8: every token produced by make_token is non-zero; the counter
equals the token just produced, stays within uint32 range, and the next
token is the successor of the previous one, except that after UINT32_MAX
the next token wraps to 1 (zero is skipped). -/
theorem C8_make_token (s : Nat) (h : s ≤ UINT32_MAX) :
    (make_token s).1 ≠ 0 ∧
    (make_token s).2 = (make_token s).1 ∧
    (make_token s).2 ≤ UINT32_MAX ∧
    ((make_token s).1 < UINT32_MAX → (make_token (make_token s).2).1 = (make_token s).1 + 1) ∧
    ((make_token s).1 = UINT32_MAX → (make_token (make_token s).2).1 = 1) := by
  have hA := make_token_eq s h
  by_cases hs : s = UINT32_MAX
  · rw [hA, if_pos hs]
    refine ⟨by decide, rfl, by decide, ?_, ?_⟩
    · intro _
      have h2 := make_token_eq 1 (by decide)
      rw [h2, if_neg (by decide)]
    · intro h1
      exact absurd h1 (by decide)
  · rw [hA, if_neg hs]
    have hle : s + 1 ≤ UINT32_MAX := by
      unfold UINT32_MAX at *
      omega
    refine ⟨by omega, rfl, hle, ?_, ?_⟩
    · intro hlt2
      have h2 := make_token_eq (s + 1) hle
      rw [h2, if_neg ?_]
      unfold UINT32_MAX at *
      omega
    · intro heq
      have h2 := make_token_eq (s + 1) hle
      rw [h2, if_pos heq]

/-- Claim C8, witness: the theorem applied to the counter value
UINT32_MAX - 1, whose successor is UINT32_MAX, after which the wrap to 1
is exercised by the second conjunct pair. -/
theorem C8_witness :
    4294967294 ≤ UINT32_MAX ∧
    ((make_token 4294967294).1 ≠ 0 ∧
     (make_token 4294967294).2 = (make_token 4294967294).1 ∧
     (make_token 4294967294).2 ≤ UINT32_MAX ∧
     ((make_token 4294967294).1 < UINT32_MAX →
        (make_token (make_token 4294967294).2).1 = (make_token 4294967294).1 + 1) ∧
     ((make_token 4294967294).1 = UINT32_MAX →
        (make_token (make_token 4294967294).2).1 = 1)) :=
  ⟨by decide, C8_make_token 4294967294 (by decide)⟩


/-! ## C9: unexpected message types -/

/-- Claim C9, counterexample to the claim as stated: a CLICALL is not
among the message types the daemon handles for a control client, yet
after the dispatch the control session (id 4 of `c9_state`) is still in
the live-client set - the control default branch only logs and returns. -/
theorem C9_counterexample :
    expected_msgtype ClientType.ctl c9_msg.hdr.msgtype = false ∧
    ¬ (alist_find (dstepFull c9_state (Event.recv 4 c9_msg true true true true)).1.clients 4 =
       none) := by
  decide

/-- Claim C9, amended: for caller, provider (service) and monitor clients
in the OPEN state, receiving a message whose type is not among the types
the daemon handles for that client type closes the connection and removes
the session from the live-client set; for control clients the daemon only
logs the unexpected message and keeps the session. -/
theorem C9_unexpected_close (s : DState) (cid : Nat) (cli : Client) (msg : Msg)
    (srvOk repOk ackOk : Bool)
    (hcli : alist_find s.clients cid = some cli)
    (hun : expected_msgtype cli.ctype msg.hdr.msgtype = false) :
    (cli.ctype ≠ ClientType.ctl →
       (handle_client cli.ctype cid cli.token s.tree s.cmap msg true srvOk repOk ackOk).closed
         = true ∧
       (dstepFull s (Event.recv cid msg true srvOk repOk ackOk)).1.clients =
         alist_erase s.clients cid) ∧
    (cli.ctype = ClientType.ctl →
       (handle_client cli.ctype cid cli.token s.tree s.cmap msg true srvOk repOk ackOk).closed
         = false ∧
       (dstepFull s (Event.recv cid msg true srvOk repOk ackOk)).1.clients = s.clients) := by
  obtain ⟨ct, tk⟩ := cli
  cases ct
  case caller =>
    simp only [expected_msgtype, decide_eq_false_iff_not, not_or] at hun
    obtain ⟨h1, h2⟩ := hun
    constructor
    · intro _
      constructor
      · simp [handle_client, h1, h2]
      · simp [dstepFull, hcli, handle_client, h1, h2]
    · intro h
      simp at h
  case service =>
    simp only [expected_msgtype, decide_eq_false_iff_not, not_or] at hun
    obtain ⟨h1, h2, h3, h4⟩ := hun
    constructor
    · intro _
      constructor
      · simp [handle_client, h1, h2, h3, h4]
      · simp [dstepFull, hcli, handle_client, h1, h2, h3, h4]
    · intro h
      simp at h
  case mon =>
    simp only [expected_msgtype, decide_eq_false_iff_not] at hun
    constructor
    · intro _
      constructor
      · simp [handle_client, hun]
      · simp [dstepFull, hcli, handle_client, hun]
    · intro h
      simp at h
  case ctl =>
    simp only [expected_msgtype, decide_eq_false_iff_not, not_or] at hun
    obtain ⟨h1, h2⟩ := hun
    constructor
    · intro h
      exact absurd rfl h
    · intro _
      constructor
      · simp [handle_client, h1, h2]
      · simp [dstepFull, hcli, handle_client, h1, h2]

/-- Claim C9, witness: the amended theorem applied to a caller session
receiving a SRVREPLY (unexpected for callers): the session is closed and
removed. -/
theorem C9_witness :
    (alist_find c9w_state.clients 0 = some ⟨ClientType.caller, 1⟩ ∧
     expected_msgtype ClientType.caller c9w_msg.hdr.msgtype = false) ∧
    ((ClientType.caller ≠ ClientType.ctl →
       (handle_client ClientType.caller 0 1 c9w_state.tree c9w_state.cmap c9w_msg
          true true true true).closed = true ∧
       (dstepFull c9w_state (Event.recv 0 c9w_msg true true true true)).1.clients =
         alist_erase c9w_state.clients 0) ∧
     (ClientType.caller = ClientType.ctl →
       (handle_client ClientType.caller 0 1 c9w_state.tree c9w_state.cmap c9w_msg
          true true true true).closed = false ∧
       (dstepFull c9w_state (Event.recv 0 c9w_msg true true true true)).1.clients =
         c9w_state.clients)) :=
  ⟨⟨rfl, rfl⟩,
   C9_unexpected_close c9w_state 0 ⟨ClientType.caller, 1⟩ c9w_msg true true true rfl rfl⟩

/-! ## C10: bounds of the error-description table -/

/-- Claim C10: the error-description table has 18 entries while the error
codes run from BBUS_ESUCCESS to one below the maximum, 20 codes in all;
for errnum 10018 (BBUS_EREGEXPTRN) and 10019 (BBUS_ECLIUNAUTH), which lie
in the claimed range, bbus_strerror indexes past the end of the table (an
out-of-bounds read, modelled as none), while codes up to 10017 do resolve
to a description. -/
theorem C10_strerror_table_overrun :
    error_descr.length = 18 ∧
    BBUS_MAX_ERR - BBUS_ESUCCESS = 20 ∧
    BBUS_ESUCCESS ≤ 10018 ∧ (10018 : Int) < BBUS_MAX_ERR ∧
    bbus_strerror 10018 = none ∧
    bbus_strerror 10019 = none ∧
    (bbus_strerror 10017).isSome = true :=
  ⟨rfl, rfl, by decide, by decide, rfl, rfl, rfl⟩

end Busybus
